import Mathlib

/-!
Verification development for the `gpr20_data_processing` repository.

The Python modules `data_parsing.py`, `data_storage.py` and
`data_processing.py` are shallowly embedded below.  Python strings are
modelled as `List Char`, Python floats as `ℚ` (the pipeline never computes
with the numbers, it only parses and stores them, so the exact-rational
model is faithful for every property considered here), Python exceptions
as an explicit `Except PyErr` result, and the filesystem as an explicit
`FS` record threaded through the storage functions.
-/

/-- Python exceptions that the embedded code can raise. -/
inductive PyErr where
  | valueError
  | indexError
  | fileExistsError
deriving DecidableEq, Repr

instance {ε α : Type _} [DecidableEq ε] [DecidableEq α] :
    DecidableEq (Except ε α) := fun x y =>
  match x, y with
  | .ok a, .ok b =>
    if h : a = b then .isTrue (by rw [h]) else .isFalse (by simp [h])
  | .ok _, .error _ => .isFalse (by simp)
  | .error _, .ok _ => .isFalse (by simp)
  | .error e, .error f =>
    if h : e = f then .isTrue (by rw [h]) else .isFalse (by simp [h])

/-- Numeric value of an ASCII digit character. -/
def digitVal (c : Char) : Nat := c.toNat - '0'.toNat

/-- Model of Python `int(s)` applied to a one-character string, as in
`int(vna_response[0])`: an ASCII decimal digit converts, anything else
raises `ValueError`.  (Python also accepts non-ASCII decimal digits;
the instrument responses considered here are ASCII.) -/
def charToInt (c : Char) : Option Nat :=
  if c.isDigit then some (digitVal c) else none

/-- Value of a list of ASCII digit characters, most significant first. -/
def digitsVal (l : List Char) : Nat :=
  l.foldl (fun a c => 10 * a + digitVal c) 0

/-- Split a candidate float literal at the first exponent marker
(`e` or `E`): returns the mantissa text and, when a marker is present,
the exponent text after it. -/
def findExp : List Char → List Char × Option (List Char)
  | [] => ([], none)
  | c :: r =>
    if c = 'e' ∨ c = 'E' then ([], some r)
    else
      let p := findExp r
      (c :: p.1, p.2)

/-- Unsigned mantissa of a float literal: `digits`, `digits.`,
`digits.digits` or `.digits`.  The value is returned as a pair
`(num, k)` standing for `num / 10 ^ k`, so that the final rational is
assembled with a single `mkRat` (which computes well). -/
def parseMantissa (m : List Char) : Option (Nat × Nat) :=
  let intPart := m.takeWhile Char.isDigit
  match m.dropWhile Char.isDigit with
  | [] =>
    if intPart = [] then none else some (digitsVal intPart, 0)
  | '.' :: frac =>
    if frac.all Char.isDigit ∧ (intPart ≠ [] ∨ frac ≠ []) then
      some (digitsVal intPart * 10 ^ frac.length + digitsVal frac, frac.length)
    else none
  | _ => none

/-- Signed mantissa: an optional `+`/`-` sign before the unsigned form.
Returns the sign as `1` or `-1` together with the unsigned value. -/
def parseSignedMantissa (m : List Char) : Option (ℤ × Nat × Nat) :=
  match m with
  | '+' :: r => (parseMantissa r).map (fun p => (1, p))
  | '-' :: r => (parseMantissa r).map (fun p => (-1, p))
  | r => (parseMantissa r).map (fun p => (1, p))

/-- Signed exponent: an optional sign before a nonempty digit string. -/
def parseSignedExp (l : List Char) : Option ℤ :=
  match l with
  | '+' :: r => if r ≠ [] ∧ r.all Char.isDigit then some (digitsVal r) else none
  | '-' :: r => if r ≠ [] ∧ r.all Char.isDigit then some (-(digitsVal r : ℤ)) else none
  | r => if r ≠ [] ∧ r.all Char.isDigit then some (digitsVal r) else none

/-- Assemble the exact value `sgn * num * 10 ^ (e - k)` as a rational. -/
def assembleFloat (sgn : ℤ) (num k : Nat) (e : ℤ) : ℚ :=
  if 0 ≤ e - (k : ℤ) then mkRat (sgn * num * 10 ^ (e - (k : ℤ)).toNat) 1
  else mkRat (sgn * num) (10 ^ ((k : ℤ) - e).toNat)

/-- Model of Python's built-in `float(s)`: parse a decimal literal with
optional sign, fraction and exponent, returning its exact value, or fail
(`ValueError`) on any other string.  The special forms (`inf`, `nan`,
surrounding whitespace, digit-group underscores) are not modelled; the
VNA payloads considered here never use them. -/
def pyFloat (t : List Char) : Option ℚ :=
  match findExp t with
  | (m, none) =>
    (parseSignedMantissa m).map (fun p => assembleFloat p.1 p.2.1 p.2.2 0)
  | (m, some ex) =>
    match parseSignedMantissa m, parseSignedExp ex with
    | some p, some e => some (assembleFloat p.1 p.2.1 p.2.2 e)
    | _, _ => none

/-- Model of Python `s.split(',')`: the list of comma-free chunks, with
an empty chunk for every leading, trailing or doubled comma.  As in
Python, the result is never empty (`"".split(',') == ['']`). -/
def pySplit : List Char → List (List Char)
  | [] => [[]]
  | c :: rest =>
    let r := pySplit rest
    if c = ',' then [] :: r
    else
      match r with
      | [] => [[c]]
      | h :: t => (c :: h) :: t

/-- Convert a list of segments with Python `float`, stopping at the first
failure with `ValueError`, as the list comprehension in `__create_array`
does. -/
def floatList : List (List Char) → Except PyErr (List ℚ)
  | [] => .ok []
  | t :: ts =>
    match pyFloat t with
    | none => .error .valueError
    | some v =>
      match floatList ts with
      | .error e => .error e
      | .ok vs => .ok (v :: vs)

namespace DataParsing

/-- Embedding of `DataParsing.__remove_header`: drop the first character
(`vna_response[1:]`), read the next character as the header length with
`int(...)` (raising `IndexError` on an empty string and `ValueError` on a
non-digit), then drop the length character together with that many header
bytes (`vna_response[header_len+1:]`; Python slicing never fails, a start
past the end just yields the empty string). -/
def remove_header (vna_response : List Char) : Except PyErr (List Char) :=
  let v := vna_response.drop 1
  match v with
  | [] => .error .indexError
  | c :: _ =>
    match charToInt c with
    | none => .error .valueError
    | some header_len => .ok (v.drop (header_len + 1))

/-- Embedding of `DataParsing.__create_array`: split the headerless
response on every comma and convert every segment except the last one to
a float. -/
def create_array (vna_response : List Char) : Except PyErr (List ℚ) :=
  floatList ((pySplit vna_response).dropLast)

/-- Embedding of `DataParsing.parse_vna_frequency`: remove the header,
then build the float list. -/
def parse_vna_frequency (vna_freq : List Char) : Except PyErr (List ℚ) :=
  (remove_header vna_freq).bind create_array

/-- Embedding of the index loop of `DataParsing.parse_vna_trace`:
`rem` is the part of the decoded list from position `indx` on, and the
two conditionals are exactly the source's `indx % 2 == 0` (append to the
real list) and `indx % 2 != 1` (append to the imaginary list). -/
def trace_go : List ℚ → Nat → List ℚ × List ℚ
  | [], _ => ([], [])
  | x :: rest, indx =>
    let r := trace_go rest (indx + 1)
    ((if indx % 2 = 0 then x :: r.1 else r.1),
     (if indx % 2 ≠ 1 then x :: r.2 else r.2))

/-- Embedding of `DataParsing.parse_vna_trace`: decode like the frequency
parser, then run the splitting loop over the decoded list. -/
def parse_vna_trace (vna_trace : List Char) :
    Except PyErr (List ℚ × List ℚ) :=
  ((remove_header vna_trace).bind create_array).map (fun l => trace_go l 0)

end DataParsing

/-- Specification-side helper: the elements at even positions
(0-indexed) of a list. -/
def everyOther : List ℚ → List ℚ
  | [] => []
  | [a] => [a]
  | a :: _ :: rest => a :: everyOther rest

/-- Specification-side encoding helper: a comma-separated payload with a
trailing comma after every token, as in the documented response format. -/
def joinComma (ts : List (List Char)) : List Char :=
  ts.foldr (fun t acc => t ++ ',' :: acc) []

/-- One stored record, as serialized by `json.dumps` in `store_data`.
The JSON text is modelled structurally: the document is determined by
the scalar metadata fields together with the `data` list of
(`freq_value`, `real_value`, `imaginary_value`) triples, which is all
that the claims about storage observe. -/
structure Sample where
  x_coord : ℚ
  y_coord : ℚ
  z_coord : ℚ
  antennae_height : ℚ
  timestamp : String
  survey_id : String
  sample_id : String
  data : List (ℚ × ℚ × ℚ)
deriving DecidableEq, Repr

/-- The filesystem visible to the storage layer: the set of existing
directories and the files with their contents. -/
structure FS where
  dirs : List String
  files : List (String × Sample)
deriving DecidableEq, Repr

/-- A directory appearing (idempotently) in the filesystem; used to model
the action of a concurrent creator of the same path. -/
def FS.addDir (fs : FS) (p : String) : FS :=
  if p ∈ fs.dirs then fs else ⟨p :: fs.dirs, fs.files⟩

/-- Model of `os.mkdir`: raises `FileExistsError` when the path already
exists, otherwise creates it. -/
def FS.mkdir (fs : FS) (p : String) : Except PyErr FS :=
  if p ∈ fs.dirs then .error .fileExistsError else .ok ⟨p :: fs.dirs, fs.files⟩

/-- Model of `open(path, 'w')` followed by a full write: create or
truncate, so an existing file at the same path is overwritten. -/
def FS.write (fs : FS) (p : String) (s : Sample) : FS :=
  ⟨fs.dirs, (p, s) :: fs.files.filter (fun e => e.1 ≠ p)⟩

/-- Round a rational, given as numerator `n` over positive denominator
`d`, to the nearest integer, ties to the even neighbour.  This is the
rounding Python's fixed-point float formatting performs. -/
def rndHalfEven (n : ℤ) (d : ℕ) : ℤ :=
  let f := Int.fdiv n d
  let rem := n - f * d
  if 2 * rem < d then f
  else if (d : ℤ) < 2 * rem then f + 1
  else if f % 2 = 0 then f else f + 1

/-- Two-digit rendering of a value below 100. -/
def twoDigits (f : Nat) : String :=
  if f < 10 then "0" ++ toString f else toString f

namespace DataStorage

/-- Model of the Python format item applied to one coordinate in
`store_data`: fixed-point with 2 decimal digits, zero-padded to a
minimum width of 6 characters including any sign.  The coordinate is an
exact rational in this model. -/
def fmt62 (q : ℚ) : String :=
  let cents := rndHalfEven (q.num * 100) q.den
  let a := cents.natAbs
  let body := toString (a / 100) ++ "." ++ twoDigits (a % 100)
  let sgn := if cents < 0 then "-" else ""
  sgn ++ String.mk (List.replicate (6 - (sgn.length + body.length)) '0') ++ body

/-- The file name built in `store_data` from the three coordinates. -/
def format_file_name (x y z : ℚ) : String :=
  "X" ++ fmt62 x ++ "_Y" ++ fmt62 y ++ "_Z" ++ fmt62 z ++ ".json"

/-- Embedding of `DataStorage.__check_main_folder`.  `home` is the
result of `os.path.expanduser`.  The Boolean `interfere` models a
concurrent process creating the same directory between the
`os.path.exists` check and the `os.mkdir` call; the source has no
exception handling around `os.mkdir`.  Returns the main folder path
together with the resulting filesystem. -/
def check_main_folder (home : String) (fs : FS) (interfere : Bool) :
    Except PyErr (String × FS) :=
  let main_folder := home ++ "/gpr20_data/"
  let main_dir_exists := main_folder ∈ fs.dirs
  let fs1 := if interfere then fs.addDir main_folder else fs
  if main_dir_exists then .ok (main_folder, fs1)
  else (fs1.mkdir main_folder).map (fun fs2 => (main_folder, fs2))

/-- Embedding of `DataStorage.__check_survey_folder`, with the same
check-then-create structure and interference point as the main-folder
check. -/
def check_survey_folder (path : String) (fs : FS) (interfere : Bool) :
    Except PyErr FS :=
  let survey_dir_exists := path ∈ fs.dirs
  let fs1 := if interfere then fs.addDir path else fs
  if survey_dir_exists then .ok fs1 else fs1.mkdir path

/-- Embedding of the record-building loop of `DataStorage.store_data`:
`rem` is the part of `vna_freq` from position `indx` on; the element
accesses `vna_trace_re[indx]` and `vna_trace_im[indx]` raise
`IndexError` when the index is out of range. -/
def build_go (re im : List ℚ) : List ℚ → Nat → Except PyErr (List (ℚ × ℚ × ℚ))
  | [], _ => .ok []
  | f :: rest, indx =>
    match re.get? indx, im.get? indx with
    | some r, some m =>
      match build_go re im rest (indx + 1) with
      | .error e => .error e
      | .ok l => .ok ((f, r, m) :: l)
    | _, _ => .error .indexError

/-- The `data_list` built by `DataStorage.store_data`: one triple per
frequency entry, paired positionally. -/
def build_data_list (vna_freq vna_trace_re vna_trace_im : List ℚ) :
    Except PyErr (List (ℚ × ℚ × ℚ)) :=
  build_go vna_trace_re vna_trace_im vna_freq 0

/-- Embedding of `DataStorage.store_data`: build the data list, build
the record, derive the file name from the coordinates, ensure the main
and survey folders exist, and write the JSON file.  The folder checks
run without interference here (the sequential semantics); every error
this function can raise occurs before any filesystem effect, so an
error return leaves the filesystem as it was. -/
def store_data (home survey_dir : String) (x_coord y_coord z_coord antennae_height : ℚ)
    (timestamp survey_id sample_id : String)
    (vna_freq vna_trace_re vna_trace_im : List ℚ) (fs : FS) : Except PyErr FS :=
  match build_data_list vna_freq vna_trace_re vna_trace_im with
  | .error e => .error e
  | .ok data_list =>
    let file_dict : Sample :=
      ⟨x_coord, y_coord, z_coord, antennae_height, timestamp, survey_id,
       sample_id, data_list⟩
    let fname := format_file_name x_coord y_coord z_coord
    match check_main_folder home fs false with
    | .error e => .error e
    | .ok (main_dir, fs1) =>
      let survey_path := main_dir ++ "/" ++ survey_dir
      match check_survey_folder survey_path fs1 false with
      | .error e => .error e
      | .ok fs2 => .ok (fs2.write (survey_path ++ "/" ++ fname) file_dict)

end DataStorage

namespace DataProcessing

/-- Embedding of `DataProcessing.process_data`: parse the frequency
response, parse the trace response, then store.  The parsing steps
perform no filesystem effect, so a raised parse error returns the
filesystem unchanged; the only reachable error of the storage step (the
record-building `IndexError`) also precedes every filesystem effect. -/
def process_data (home survey_dir : String)
    (x_coord y_coord z_coord antennae_height : ℚ)
    (timestamp survey_id sample_id : String)
    (vna_freq vna_trace : List Char) (fs : FS) : Except PyErr Unit × FS :=
  match DataParsing.parse_vna_frequency vna_freq with
  | .error e => (.error e, fs)
  | .ok freq =>
    match DataParsing.parse_vna_trace vna_trace with
    | .error e => (.error e, fs)
    | .ok (vna_trace_re, vna_trace_im) =>
      match DataStorage.store_data home survey_dir x_coord y_coord z_coord
          antennae_height timestamp survey_id sample_id freq
          vna_trace_re vna_trace_im fs with
      | .error e => (.error e, fs)
      | .ok fs2 => (.ok (), fs2)

end DataProcessing

/-- Specification-side positional zip of the three parsed sequences,
truncating to the shortest. -/
def zip3 : List ℚ → List ℚ → List ℚ → List (ℚ × ℚ × ℚ)
  | f :: fs, r :: rs, m :: ms => (f, r, m) :: zip3 fs rs ms
  | _, _, _ => []

theorem everyOther_cons (x : ℚ) (rest : List ℚ) :
    everyOther (x :: rest) = x :: everyOther (rest.drop 1) := by
  cases rest <;> rfl

/-- The source's two independent conditionals keep exactly the
even-position suffix elements, in both output lists. -/
theorem trace_go_eq (rem : List ℚ) : ∀ indx,
    DataParsing.trace_go rem indx =
      (if indx % 2 = 0 then everyOther rem else everyOther (rem.drop 1),
       if indx % 2 = 0 then everyOther rem else everyOther (rem.drop 1)) := by
  induction rem with
  | nil => intro indx; cases Nat.mod_two_eq_zero_or_one indx with
    | inl h => simp [DataParsing.trace_go, h, everyOther]
    | inr h => simp [DataParsing.trace_go, h, everyOther]
  | cons x rest ih =>
    intro indx
    cases Nat.mod_two_eq_zero_or_one indx with
    | inl h =>
      have h1 : (indx + 1) % 2 = 1 := by omega
      simp only [DataParsing.trace_go, ih (indx + 1), h, h1]
      simp [everyOther_cons]
    | inr h =>
      have h1 : (indx + 1) % 2 = 0 := by omega
      simp only [DataParsing.trace_go, ih (indx + 1), h, h1]
      simp

theorem trace_go_zero (l : List ℚ) :
    DataParsing.trace_go l 0 = (everyOther l, everyOther l) := by
  simp [trace_go_eq]

theorem pySplit_comma_cons (t rest : List Char) (h : ',' ∉ t) :
    pySplit (t ++ ',' :: rest) = t :: pySplit rest := by
  induction t with
  | nil => simp [pySplit]
  | cons c t' ih =>
    have hc : c ≠ ',' := fun hc => h (hc ▸ List.mem_cons_self c t')
    have ht' : ',' ∉ t' := fun hm => h (List.mem_cons_of_mem c hm)
    simp only [List.cons_append, pySplit, if_neg hc]
    rw [show t'.append (',' :: rest) = t' ++ ',' :: rest from rfl, ih ht']

theorem pySplit_join (ts : List (List Char)) (h : ∀ t ∈ ts, ',' ∉ t) :
    pySplit (joinComma ts) = ts ++ [[]] := by
  induction ts with
  | nil => rfl
  | cons t ts' ih =>
    have ht : ',' ∉ t := h t (List.mem_cons_self t ts')
    have hts' : ∀ u ∈ ts', ',' ∉ u := fun u hu => h u (List.mem_cons_of_mem t hu)
    show pySplit (t ++ ',' :: joinComma ts') = _
    rw [pySplit_comma_cons t _ ht, ih hts']
    rfl

theorem floatList_error_of_mem (ts : List (List Char))
    (h : ∃ t ∈ ts, pyFloat t = none) : floatList ts = .error .valueError := by
  induction ts with
  | nil => simp at h
  | cons t ts' ih =>
    obtain ⟨u, hu, hnone⟩ := h
    rcases List.mem_cons.mp hu with rfl | hu'
    · simp [floatList, hnone]
    · show floatList (t :: ts') = _
      unfold floatList
      cases hpf : pyFloat t with
      | none => rfl
      | some v => rw [ih ⟨u, hu', hnone⟩]

/-- A syntactically well-formed header is consumed exactly: the first
character is dropped unseen, the digit gives the length, and the header
bytes are skipped. -/
theorem remove_header_valid (c0 d : Char) (hdr payload : List Char)
    (hd : d.isDigit = true) (hlen : hdr.length = digitVal d) :
    DataParsing.remove_header (c0 :: d :: hdr ++ payload) = .ok payload := by
  show DataParsing.remove_header (c0 :: (d :: (hdr ++ payload))) = _
  simp only [DataParsing.remove_header, List.drop_succ_cons, List.drop_zero,
    charToInt, hd, if_pos]
  rw [← hlen, List.drop_left]

theorem create_array_join (ts : List (List Char))
    (hcomma : ∀ t ∈ ts, ',' ∉ t) :
    DataParsing.create_array (joinComma ts) = floatList ts := by
  unfold DataParsing.create_array
  rw [pySplit_join ts hcomma, List.dropLast_concat]

theorem build_go_ok (re im : List ℚ) (rem : List ℚ) : ∀ i,
    i + rem.length ≤ re.length → i + rem.length ≤ im.length →
    DataStorage.build_go re im rem i =
      .ok (zip3 rem (re.drop i) (im.drop i)) := by
  induction rem with
  | nil =>
    intro i _ _
    cases hre : re.drop i <;> cases him : im.drop i <;> rfl
  | cons f rest ih =>
    intro i hre him
    have hire : i < re.length := by simp at hre; omega
    have hiim : i < im.length := by simp at him; omega
    have hre' : re.get? i = some re[i] := by
      simp [List.get?_eq_getElem?, List.getElem?_eq_getElem hire]
    have him' : im.get? i = some im[i] := by
      simp [List.get?_eq_getElem?, List.getElem?_eq_getElem hiim]
    simp only [DataStorage.build_go, hre', him']
    rw [ih (i + 1) (by simp at hre ⊢; omega) (by simp at him ⊢; omega)]
    rw [List.drop_eq_getElem_cons hire, List.drop_eq_getElem_cons hiim]
    rfl

theorem build_go_err (re im : List ℚ) (rem : List ℚ) : ∀ i,
    (re.length < i + rem.length ∨ im.length < i + rem.length) → rem ≠ [] →
    DataStorage.build_go re im rem i = .error .indexError := by
  induction rem with
  | nil => intro i _ hne; exact absurd rfl hne
  | cons f rest ih =>
    intro i hlt _
    unfold DataStorage.build_go
    cases hre : re.get? i with
    | none => rfl
    | some r =>
      cases him : im.get? i with
      | none => rfl
      | some m =>
        have hire : i < re.length := by
          by_contra hh
          simp [List.get?_eq_getElem?, List.getElem?_eq_none (by omega : re.length ≤ i)] at hre
        have hiim : i < im.length := by
          by_contra hh
          simp [List.get?_eq_getElem?, List.getElem?_eq_none (by omega : im.length ≤ i)] at him
        have hrest : rest ≠ [] := by
          intro hnil
          subst hnil
          simp at hlt
          omega
        rw [ih (i + 1) (by simp at hlt ⊢; omega) hrest]

/-- Claim C1: the spec asserts strict deinterleaving (even positions to
the real list, odd positions to the imaginary list), in line with the
source's own comments and docstring; but the second conditional
`indx % 2 != 1` holds exactly when `indx % 2 == 0`, so odd-position
values are appended nowhere.  Evaluating the code at the failing input
shows the decoded sequence [1.0, 2.0, 3.0, 4.0] yields real = [1.0, 3.0]
and imaginary = [1.0, 3.0] instead of the documented [2.0, 4.0]. -/
theorem C1_trace_split_eval :
    DataParsing.parse_vna_trace ("#101.0,2.0,3.0,4.0,".data) =
      .ok ([1, 3], [1, 3]) := by decide

/-- Claim C2: for every valid raw response — `#`, a digit `d`, exactly
`digitVal d` header bytes, then comma-separated float literals each
ending with a comma — `parse_vna_frequency` returns exactly the floats
between the header and the trailing comma, in their original order. -/
theorem C2_valid_response_decodes (d : Char) (hdr : List Char)
    (ts : List (List Char)) (vs : List ℚ)
    (hd : d.isDigit = true) (hlen : hdr.length = digitVal d)
    (hcomma : ∀ t ∈ ts, ',' ∉ t) (hts : floatList ts = .ok vs) :
    DataParsing.parse_vna_frequency ('#' :: d :: hdr ++ joinComma ts) =
      .ok vs := by
  unfold DataParsing.parse_vna_frequency
  rw [remove_header_valid '#' d hdr (joinComma ts) hd hlen]
  show DataParsing.create_array (joinComma ts) = .ok vs
  rw [create_array_join ts hcomma, hts]

/-- Claim C2 witness: the response with digit 2, header "ab" and payload
"1.5,2.25," decodes to [1.5, 2.25]. -/
theorem C2_valid_response_decodes_witness :
    DataParsing.parse_vna_frequency
      ('#' :: '2' :: ("ab".data) ++ joinComma [("1.5".data), ("2.25".data)]) =
      .ok [mkRat 3 2, mkRat 9 4] :=
  C2_valid_response_decodes '2' ("ab".data) [("1.5".data), ("2.25".data)]
    [mkRat 3 2, mkRat 9 4] (by decide) (by decide) (by decide) (by decide)

/-- Claim C3 counterexample: the response "#1" promises a 1-byte header
but has only 2 characters (fewer than 2 + N = 3); the claim says this
must fail with an explicit error, yet decoding succeeds with the empty
result, because Python slicing past the end of a string silently yields
the empty string. -/
theorem C3_counterexample_short_response :
    DataParsing.parse_vna_frequency ("#1".data) = .ok [] := by decide

/-- Claim C3 as amended: cases (1) (non-digit header-length character)
and (2) (a non-final comma-split segment that is not a float literal)
fail with an explicit ValueError, but in case (3) a response of length
at least 2 that is shorter than the 2 + N characters its header
promises decodes silently to the empty list — no error is raised. -/
theorem C3_amended_failure_modes :
    (∀ (c0 c1 : Char) (rest : List Char), c1.isDigit = false →
      DataParsing.parse_vna_frequency (c0 :: c1 :: rest) = .error .valueError)
    ∧ (∀ (d : Char) (hdr : List Char) (ts : List (List Char)),
        d.isDigit = true → hdr.length = digitVal d → (∀ t ∈ ts, ',' ∉ t) →
        (∃ t ∈ ts, pyFloat t = none) →
        DataParsing.parse_vna_frequency ('#' :: d :: hdr ++ joinComma ts) =
          .error .valueError)
    ∧ (∀ (c0 c1 : Char) (rest : List Char), c1.isDigit = true →
        rest.length < digitVal c1 →
        DataParsing.parse_vna_frequency (c0 :: c1 :: rest) = .ok []) := by
  refine ⟨?_, ?_, ?_⟩
  · intro c0 c1 rest h
    show (DataParsing.remove_header (c0 :: c1 :: rest)).bind _ = _
    simp [DataParsing.remove_header, charToInt, h, Except.bind]
  · intro d hdr ts hd hlen hcomma hex
    unfold DataParsing.parse_vna_frequency
    rw [remove_header_valid '#' d hdr (joinComma ts) hd hlen]
    show DataParsing.create_array (joinComma ts) = _
    rw [create_array_join ts hcomma, floatList_error_of_mem ts hex]
  · intro c0 c1 rest h hlen
    unfold DataParsing.parse_vna_frequency
    simp only [DataParsing.remove_header, List.drop_succ_cons, List.drop_zero,
      charToInt, h, if_pos]
    rw [List.drop_eq_nil_of_le (le_of_lt hlen)]
    rfl

/-- Claim C3 witness: a concrete instance of each amended case — "#x5,"
raises ValueError on the non-digit length, "#1zx,1.0," raises
ValueError on the non-float segment "x", and "#1" silently returns
the empty list. -/
theorem C3_amended_failure_modes_witness :
    DataParsing.parse_vna_frequency ("#x5,".data) = .error .valueError
    ∧ DataParsing.parse_vna_frequency
        ('#' :: '1' :: ("z".data) ++ joinComma [("x".data), ("1.0".data)]) =
        .error .valueError
    ∧ DataParsing.parse_vna_frequency ("#1".data) = .ok [] :=
  ⟨C3_amended_failure_modes.1 '#' 'x' ("5,".data) (by decide),
   C3_amended_failure_modes.2.1 '1' ("z".data) [("x".data), ("1.0".data)]
     (by decide) (by decide) (by decide) ⟨("x".data), by decide, by decide⟩,
   C3_amended_failure_modes.2.2 '#' '1' [] (by decide) (by decide)⟩

/-- Claim C4 counterexample: with frequency [1] but real [10, 20] and
imaginary [30, 40] — unequal lengths — the claim requires an explicit
mismatch error; instead `store_data` succeeds, silently truncating the
stored data to the single frequency entry and dropping the extra
real/imaginary values. -/
theorem C4_counterexample_silent_truncation :
    DataStorage.store_data "h" "s" 0 0 0 0 "t" "i" "d"
      [1] [10, 20] [30, 40] ⟨[], []⟩ =
      .ok ⟨["h/gpr20_data//s", "h/gpr20_data/"],
           [("h/gpr20_data//s/X000.00_Y000.00_Z000.00.json",
             ⟨0, 0, 0, 0, "t", "i", "d", [(1, 10, 30)]⟩)]⟩ := by decide

/-- Claim C4 as amended: no mismatch detection exists.  If the real or
imaginary list is shorter than the frequency list, the record-building
loop performs an unguarded out-of-bounds access and `store_data` raises
`IndexError` (before touching the filesystem); if both are at least as
long as the frequency list, the data list is built by positional
pairing truncated to the frequency length, with any extra real or
imaginary entries silently dropped and no error reported. -/
theorem C4_amended_mismatch_behaviour :
    (∀ (home survey_dir : String) (x y z ah : ℚ) (ts sid smp : String)
       (freq re im : List ℚ) (fs : FS),
       re.length < freq.length ∨ im.length < freq.length →
       DataStorage.store_data home survey_dir x y z ah ts sid smp
         freq re im fs = .error .indexError)
    ∧ (∀ freq re im : List ℚ,
        freq.length ≤ re.length → freq.length ≤ im.length →
        DataStorage.build_data_list freq re im = .ok (zip3 freq re im)) := by
  constructor
  · intro home survey_dir x y z ah ts sid smp freq re im fs hlt
    have hne : freq ≠ [] := by
      intro hnil
      subst hnil
      simp at hlt
    unfold DataStorage.store_data DataStorage.build_data_list
    rw [build_go_err re im freq 0 (by omega) hne]
  · intro freq re im h1 h2
    unfold DataStorage.build_data_list
    rw [build_go_ok re im freq 0 (by omega) (by omega)]
    simp

/-- Claim C4 witness: frequency [1, 2] with real [10] raises IndexError
through `store_data`; frequency [1] with longer real/imaginary lists
builds exactly one positionally paired triple. -/
theorem C4_amended_mismatch_behaviour_witness :
    DataStorage.store_data "h" "s" 0 0 0 0 "t" "i" "d"
      [1, 2] [10] [30, 40] ⟨[], []⟩ = .error .indexError
    ∧ DataStorage.build_data_list [1] [10, 20] [30, 40] = .ok [(1, 10, 30)] :=
  ⟨C4_amended_mismatch_behaviour.1 "h" "s" 0 0 0 0 "t" "i" "d"
     [1, 2] [10] [30, 40] ⟨[], []⟩ (by decide),
   (C4_amended_mismatch_behaviour.2 [1] [10, 20] [30, 40]
     (by decide) (by decide)).trans (by decide)⟩

/-- Claim C5 counterexample: the code reads the header length as the
single digit after `#`, so for "#15xxxxxxxxxxxxxxx1.0,2.0,3.0," it
consumes only "15", leaving "xxxxxxxxxxxxxxx1.0" as the first segment,
which is not a float literal: decoding raises ValueError instead of
succeeding with [1.0, 2.0, 3.0] as the claim states. -/
theorem C5_counterexample_scenario_fails :
    DataParsing.parse_vna_frequency ("#15xxxxxxxxxxxxxxx1.0,2.0,3.0,".data) =
      .error .valueError := by decide

/-- Claim C5 as amended: decoding "#15xxxxxxxxxxxxxxx1.0,2.0,3.0," fails
with ValueError, because `N` is the single digit 1 (not 15) and the
15-character padding is not consumed; the corresponding well-formed
response with a 1-byte header, "#151.0,2.0,3.0,", does decode to
[1.0, 2.0, 3.0]. -/
theorem C5_amended_single_digit_header :
    DataParsing.parse_vna_frequency ("#15xxxxxxxxxxxxxxx1.0,2.0,3.0,".data) =
      .error .valueError
    ∧ DataParsing.parse_vna_frequency ("#151.0,2.0,3.0,".data) =
        .ok [1, 2, 3] := by
  exact ⟨by decide, by decide⟩

/-- Claim C6: when parsing of the frequency response or of the trace
response fails, `process_data` propagates the error and performs no
filesystem effect: the returned filesystem is the input one, no file
written and no directory created. -/
theorem C6_parse_failure_no_write (home survey_dir : String)
    (x y z ah : ℚ) (ts sid smp : String)
    (vna_freq vna_trace : List Char) (fs : FS)
    (hfail : (∃ e, DataParsing.parse_vna_frequency vna_freq = .error e) ∨
             (∃ e, DataParsing.parse_vna_trace vna_trace = .error e)) :
    ∃ e, DataProcessing.process_data home survey_dir x y z ah ts sid smp
      vna_freq vna_trace fs = (.error e, fs) := by
  cases hf : DataParsing.parse_vna_frequency vna_freq with
  | error e =>
    exact ⟨e, by unfold DataProcessing.process_data; rw [hf]⟩
  | ok freq =>
    have htfail : ∃ e, DataParsing.parse_vna_trace vna_trace = .error e := by
      rcases hfail with ⟨e, he⟩ | h
      · rw [hf] at he; cases he
      · exact h
    obtain ⟨e, he⟩ := htfail
    exact ⟨e, by unfold DataProcessing.process_data; rw [hf, he]⟩

/-- Claim C6 witness: a malformed frequency response ("#x,", non-digit
header length) makes the whole pipeline fail and leaves the empty
filesystem untouched. -/
theorem C6_parse_failure_no_write_witness :
    ∃ e, DataProcessing.process_data "h" "s" 0 0 0 0 "t" "i" "d"
      ("#x,".data) ("#101.0,2.0,".data) ⟨[], []⟩ =
      (.error e, (⟨[], []⟩ : FS)) :=
  C6_parse_failure_no_write "h" "s" 0 0 0 0 "t" "i" "d"
    ("#x,".data) ("#101.0,2.0,".data) ⟨[], []⟩
    (Or.inl ⟨.valueError, by decide⟩)

/-- Claim C7: the file name is deterministically derived from the three
coordinates, each rendered as zero-padded fixed point with 2 decimals in
a width-6 field (3.1 renders as "003.10"), joined as X_Y_Z with a .json
suffix: x=1.5, y=2.25, z=0.0 gives "X001.50_Y002.25_Z000.00.json", and
storing with those coordinates writes exactly that file name. -/
theorem C7_file_name_format :
    DataStorage.format_file_name (mkRat 3 2) (mkRat 9 4) 0 =
      "X001.50_Y002.25_Z000.00.json"
    ∧ DataStorage.fmt62 (mkRat 31 10) = "003.10"
    ∧ DataStorage.store_data "h" "s" (mkRat 3 2) (mkRat 9 4) 0 0 "t" "i" "d"
        [] [] [] ⟨[], []⟩ =
        .ok ⟨["h/gpr20_data//s", "h/gpr20_data/"],
             [("h/gpr20_data//s/X001.50_Y002.25_Z000.00.json",
               ⟨mkRat 3 2, mkRat 9 4, 0, 0, "t", "i", "d", []⟩)]⟩ := by
  exact ⟨by decide, by decide, by decide⟩

/-- Claim C8 counterexample: when the survey directory does not exist at
the check but is created by a concurrent writer before `os.mkdir` (the
interference flag), the already-exists failure is not swallowed — the
source has no exception handling — and `FileExistsError` surfaces to
the caller, contrary to the claim. -/
theorem C8_counterexample_race_surfaces :
    DataStorage.check_survey_folder "p" ⟨[], []⟩ true =
      .error .fileExistsError := by decide

/-- Claim C8 as amended: a directory that already exists at the time of
the existence check is treated as success (no creation is attempted and
no error surfaces), for both the main data folder and the survey
folder; but an already-exists creation failure — the directory
appearing between the check and the `os.mkdir` call — is not swallowed:
`FileExistsError` propagates to the caller. -/
theorem C8_amended_directory_checks :
    (∀ (home : String) (fs : FS) (i : Bool),
       home ++ "/gpr20_data/" ∈ fs.dirs →
       DataStorage.check_main_folder home fs i =
         .ok (home ++ "/gpr20_data/",
              if i then fs.addDir (home ++ "/gpr20_data/") else fs))
    ∧ (∀ (p : String) (fs : FS) (i : Bool), p ∈ fs.dirs →
        DataStorage.check_survey_folder p fs i =
          .ok (if i then fs.addDir p else fs))
    ∧ (∀ (home : String) (fs : FS), home ++ "/gpr20_data/" ∉ fs.dirs →
        DataStorage.check_main_folder home fs true = .error .fileExistsError)
    ∧ (∀ (p : String) (fs : FS), p ∉ fs.dirs →
        DataStorage.check_survey_folder p fs true = .error .fileExistsError) := by
  refine ⟨?_, ?_, ?_, ?_⟩
  · intro home fs i h
    simp [DataStorage.check_main_folder, h]
  · intro p fs i h
    simp [DataStorage.check_survey_folder, h]
  · intro home fs h
    simp [DataStorage.check_main_folder, h, FS.addDir, FS.mkdir, Except.map]
  · intro p fs h
    simp [DataStorage.check_survey_folder, h, FS.addDir, FS.mkdir]

/-- Claim C8 witness: concrete instances of the amended behaviour — an
existing main folder and an existing survey folder are accepted, and a
fresh path created concurrently in the check-to-create window makes
both checks surface `FileExistsError`. -/
theorem C8_amended_directory_checks_witness :
    DataStorage.check_main_folder "h" ⟨["h/gpr20_data/"], []⟩ false =
      .ok ("h/gpr20_data/", ⟨["h/gpr20_data/"], []⟩)
    ∧ DataStorage.check_survey_folder "p" ⟨["p"], []⟩ true =
        .ok ⟨["p"], []⟩
    ∧ DataStorage.check_main_folder "h" ⟨["x"], []⟩ true =
        .error .fileExistsError
    ∧ DataStorage.check_survey_folder "q" ⟨[], []⟩ true =
        .error .fileExistsError :=
  ⟨(C8_amended_directory_checks.1 "h" ⟨["h/gpr20_data/"], []⟩ false
      (by decide)).trans (by decide),
   (C8_amended_directory_checks.2.1 "p" ⟨["p"], []⟩ true
      (by decide)).trans (by decide),
   C8_amended_directory_checks.2.2.1 "h" ⟨["x"], []⟩ (by decide),
   C8_amended_directory_checks.2.2.2 "q" ⟨[], []⟩ (by decide)⟩

/-- Claim C9: whenever `parse_vna_trace` succeeds, its two output lists
are identical — both are exactly the even-position elements of the
decoded sequence (the frequency-parse of the same string), so they have
equal length and no odd-position value appears in either. -/
theorem C9_trace_lists_identical (s : List Char) (re im : List ℚ)
    (h : DataParsing.parse_vna_trace s = .ok (re, im)) :
    ∃ l, DataParsing.parse_vna_frequency s = .ok l
      ∧ re = everyOther l ∧ im = everyOther l := by
  unfold DataParsing.parse_vna_trace at h
  unfold DataParsing.parse_vna_frequency
  cases hd : (DataParsing.remove_header s).bind DataParsing.create_array with
  | error e =>
    rw [hd] at h
    simp [Except.map] at h
  | ok l =>
    rw [hd] at h
    simp only [Except.map] at h
    rw [trace_go_zero] at h
    injection h with h'
    injection h' with h1 h2
    exact ⟨l, rfl, h1.symm, h2.symm⟩

/-- Claim C9 witness: the trace response "#010.0,20.0,30.0," decodes to
[10, 20, 30] and splits into two identical lists [10, 30]. -/
theorem C9_trace_lists_identical_witness :
    ∃ l, DataParsing.parse_vna_frequency ("#010.0,20.0,30.0,".data) = .ok l
      ∧ [(10 : ℚ), 30] = everyOther l ∧ [(10 : ℚ), 30] = everyOther l :=
  C9_trace_lists_identical ("#010.0,20.0,30.0,".data) [10, 30] [10, 30]
    (by decide)

/-- Claim C10: the decoder never inspects the first character of the raw
response — `vna_response[1:]` discards it unconditionally — so any two
responses differing only in their first character (in particular one
starting with '#' and one not) decode identically. -/
theorem C10_first_char_never_inspected (c c' : Char) (rest : List Char) :
    DataParsing.parse_vna_frequency (c :: rest) =
      DataParsing.parse_vna_frequency (c' :: rest) := rfl
